import Mathlib

/-!
Shallow embedding of the SKU-selection-tool calculation engine
(`backend/app/core/calculator.py`): the three-tier configuration
override cascade, the financial calculator, the scoring engine, the
scenario demand model and the recommendation classifier, together with
the configuration records from `backend/app/models/multidimensional.py`.
Python floats are modelled as real numbers; Python `dict`s keyed by
composite strings are modelled as association lists over `String`;
nullable attributes are `Option`s.
-/

namespace SkuTool

/-- Association-list lookup: models Python `dict` membership / `dict.get`
(`k in d` / `d[k]` / `d.get(k)`). -/
def lookup {α : Type} : List (String × α) → String → Option α
  | [], _ => none
  | (k, v) :: rest, key => if k = key then some v else lookup rest key

/-- `MarketConfig` from `app/models/multidimensional.py` (column defaults kept). -/
structure MarketConfig where
  currency : String := "USD"
  import_freight_pct : ℝ := 0.0
  duties_taxes_pct : ℝ := 0.0
  price_multiplier : ℝ := 1.0
  doc_distributor : ℝ := 30.0
  doc_retail : ℝ := 15.0

/-- `MarketChannelConfig` from `app/models/multidimensional.py`:
eight additive cost-to-serve percentages plus demand drivers. -/
structure MarketChannelConfig where
  commission_pct : ℝ := 0.0
  fulfillment_pct : ℝ := 0.0
  cod_pct : ℝ := 0.0
  returns_allowance_pct : ℝ := 0.0
  listing_fees_pct : ℝ := 0.0
  trade_terms_pct : ℝ := 0.0
  rebates_pct : ℝ := 0.0
  promo_accrual_pct : ℝ := 0.0
  retail_adoption_rate : ℝ := 1.0
  marketing_lift : ℝ := 1.0
  base_units_month : ℝ := 0.0
  channel_weight : ℝ := 1.0
  competitor_activity_idx : ℝ := 0.0

/-- `MarketCategoryConfig` from `app/models/multidimensional.py`:
three nullable override multipliers. -/
structure MarketCategoryConfig where
  adoption_rate_override : Option ℝ := none
  marketing_lift_override : Option ℝ := none
  competitor_idx_override : Option ℝ := none

/-- Modelled from the spec: `SkuRecord` lives in `app/models/skus.py`,
which is absent from the sources; its fields are reconstructed from the
spec's data model (§3) and from every attribute the calculation engine
reads. Nullable attributes are `Option`s. -/
structure SkuRecord where
  sku_id : String
  target_market : Option String := none
  primary_channel : Option String := none
  category : Option String := none
  local_list_price : Option ℝ := none
  landed_cost : Option ℝ := none
  score_consumer_trend : Option ℝ := none
  score_point_of_diff : Option ℝ := none
  score_channel_suitability : Option ℝ := none
  score_strategic_role : Option ℝ := none
  score_marketing_leverage : Option ℝ := none
  score_price_ladder : Option ℝ := none
  score_usage_occasion : Option ℝ := none
  score_channel_diff : Option ℝ := none
  score_story_cohesion : Option ℝ := none
  score_operational_synergy : Option ℝ := none
  score_regulatory_delay : Option ℝ := none
  score_retail_listing : Option ℝ := none
  score_competitive : Option ℝ := none
  score_supply_chain : Option ℝ := none
  score_price_war : Option ℝ := none
  regulatory_eligible : Option Bool := none
  supply_ready : Option Bool := none
  ip_risk_high : Option Bool := none
  regulatory_prohibition : Option Bool := none

/-- Modelled from the spec: `SkuCalculationCache` lives in
`app/models/skus.py`, which is absent from the sources; the fields are
those the engine writes (result snapshot, spec §6), with the all-zero /
empty defaults the degenerate short-circuit relies on. -/
structure SkuCalculationCache where
  sku_id : String
  gm_dollar_per_unit : ℝ := 0.0
  gm_pct : ℝ := 0.0
  weighted_score_layer_b : ℝ := 0.0
  channel_weighted_score : ℝ := 0.0
  synergy_score_layer_c : ℝ := 0.0
  risk_score_layer_d : ℝ := 0.0
  risk_factor : ℝ := 0.0
  adj_units_base : ℝ := 0.0
  adj_units_best : ℝ := 0.0
  adj_units_worst : ℝ := 0.0
  monthly_revenue : ℝ := 0.0
  monthly_gm_dollar : ℝ := 0.0
  monthly_gm_base : ℝ := 0.0
  monthly_gm_best : ℝ := 0.0
  monthly_gm_worst : ℝ := 0.0
  pass_regulatory : Bool := false
  pass_supply_ready : Bool := false
  pass_gm_floor : Bool := false
  final_recommendation : String := ""
  select_for_wave_1 : Bool := false

/-- The `CalculationEngine` constructor state: global settings plus the
three configuration maps, keyed exactly as the callers build them
(`market`, `market_channel`, `market_channel_category`). -/
structure CalculationEngine where
  settings : List (String × ℝ)
  markets : List (String × MarketConfig)
  market_channels : List (String × MarketChannelConfig)
  market_categories : List (String × MarketCategoryConfig)

/-- Python truthiness of an `Optional[str]`: `not x` is true for `None`
and for the empty string. -/
def isBlank : Option String → Bool
  | none => true
  | some s => s.isEmpty

/-- Python truthiness of an `Optional[bool]`: `None` is falsy. -/
def optTrue : Option Bool → Bool
  | none => false
  | some b => b

/-- Python `x or default` on an `Optional[str]`: the empty string is
falsy, so it also falls back to the default. -/
def orString (x : Option String) (d : String) : String :=
  match x with
  | none => d
  | some s => if s.isEmpty then d else s

/-- `CalculationEngine._get_setting`: `self.settings.get(key, default)`. -/
def getSetting (e : CalculationEngine) (key : String) (default : ℝ) : ℝ :=
  (lookup e.settings key).getD default

/-- `CalculationEngine._map_field_name`: maps the override name back to
the base `MarketChannelConfig` attribute name. -/
def mapFieldName (field_name : String) : String :=
  if field_name = "adoption_rate" then "retail_adoption_rate"
  else if field_name = "marketing_lift" then "marketing_lift"
  else if field_name = "competitor_idx" then "competitor_activity_idx"
  else field_name

/-- Python `getattr(category_config, attr, None)` restricted to the
attributes a `MarketCategoryConfig` owns: any other name yields `None`. -/
def catAttr (cc : MarketCategoryConfig) (attr : String) : Option ℝ :=
  if attr = "adoption_rate_override" then cc.adoption_rate_override
  else if attr = "marketing_lift_override" then cc.marketing_lift_override
  else if attr = "competitor_idx_override" then cc.competitor_idx_override
  else none

/-- Python `getattr(channel_config, attr, None)` over the thirteen float
attributes a `MarketChannelConfig` owns: any other name yields `None`. -/
def chanAttr (mc : MarketChannelConfig) (attr : String) : Option ℝ :=
  if attr = "commission_pct" then some mc.commission_pct
  else if attr = "fulfillment_pct" then some mc.fulfillment_pct
  else if attr = "cod_pct" then some mc.cod_pct
  else if attr = "returns_allowance_pct" then some mc.returns_allowance_pct
  else if attr = "listing_fees_pct" then some mc.listing_fees_pct
  else if attr = "trade_terms_pct" then some mc.trade_terms_pct
  else if attr = "rebates_pct" then some mc.rebates_pct
  else if attr = "promo_accrual_pct" then some mc.promo_accrual_pct
  else if attr = "retail_adoption_rate" then some mc.retail_adoption_rate
  else if attr = "marketing_lift" then some mc.marketing_lift
  else if attr = "base_units_month" then some mc.base_units_month
  else if attr = "channel_weight" then some mc.channel_weight
  else if attr = "competitor_activity_idx" then some mc.competitor_activity_idx
  else none

/-- `CalculationEngine._get_override`: the 3-tier resolution cascade
(category override, then channel default, then global setting). -/
def getOverride (e : CalculationEngine) (market channel category field_name : String)
    (global_default : ℝ) : ℝ :=
  let tier3 := getSetting e field_name global_default
  let tier2 :=
    match lookup e.market_channels (market ++ "_" ++ channel) with
    | some mc =>
        match chanAttr mc (mapFieldName field_name) with
        | some v => v
        | none => tier3
    | none => tier3
  match lookup e.market_categories (market ++ "_" ++ channel ++ "_" ++ category) with
  | some cc =>
      match catAttr cc (field_name ++ "_override") with
      | some v => v
      | none => tier2
  | none => tier2

/-! ## `calculate_sku` pipeline

Each local of `CalculationEngine.calculate_sku` becomes a named
definition over `(e, sku, market, channel)`; `calculate_sku` itself
short-circuits on an incomplete SKU and otherwise assembles the cache
from these definitions, in source order. -/

/-- Step 1: adjusted list price (`local_list_price × price_multiplier`,
pass-through when the market is unconfigured). -/
noncomputable def adjListPrice (e : CalculationEngine) (sku : SkuRecord) (market : String) : ℝ :=
  match lookup e.markets market with
  | some md => (sku.local_list_price.getD 0.0) * md.price_multiplier
  | none => sku.local_list_price.getD 0.0

/-- Step 1: imported COGS (`landed_cost × (1 + freight) × (1 + duties)`,
pass-through when the market is unconfigured). -/
noncomputable def importedCogs (e : CalculationEngine) (sku : SkuRecord) (market : String) : ℝ :=
  match lookup e.markets market with
  | some md => (sku.landed_cost.getD 0.0) * (1.0 + md.import_freight_pct) * (1.0 + md.duties_taxes_pct)
  | none => sku.landed_cost.getD 0.0

/-- Step 2: CTS matrix total — sum of the eight channel percentages,
0 when the channel is unconfigured. -/
noncomputable def ctsPct (e : CalculationEngine) (market channel : String) : ℝ :=
  match lookup e.market_channels (market ++ "_" ++ channel) with
  | some mc =>
      mc.commission_pct + mc.fulfillment_pct + mc.cod_pct +
      mc.returns_allowance_pct + mc.listing_fees_pct +
      mc.trade_terms_pct + mc.rebates_pct + mc.promo_accrual_pct
  | none => 0.0

/-- Step 3: gross margin per unit. -/
noncomputable def gmDollarPerUnit (e : CalculationEngine) (sku : SkuRecord) (market channel : String) : ℝ :=
  adjListPrice e sku market - (importedCogs e sku market + ctsPct e market channel * adjListPrice e sku market)

/-- Step 3: gross margin %, with the division-by-zero guard. -/
noncomputable def gmPct (e : CalculationEngine) (sku : SkuRecord) (market channel : String) : ℝ :=
  if adjListPrice e sku market > 0 then gmDollarPerUnit e sku market channel / adjListPrice e sku market
  else 0.0

/-- Step 4, layer B: weighted market & channel fit score. -/
noncomputable def scoreB (e : CalculationEngine) (sku : SkuRecord) : ℝ :=
  (sku.score_consumer_trend.getD 0) * getSetting e "consumer_trend_weight" 0.2 +
  (sku.score_point_of_diff.getD 0) * getSetting e "point_of_diff_weight" 0.2 +
  (sku.score_channel_suitability.getD 0) * getSetting e "channel_suitability_weight" 0.2 +
  (sku.score_strategic_role.getD 0) * getSetting e "strategic_role_weight" 0.2 +
  (sku.score_marketing_leverage.getD 0) * getSetting e "marketing_leverage_weight" 0.2

/-- Step 4: channel weight (1.0 default when the channel is unconfigured). -/
noncomputable def chWeight (e : CalculationEngine) (market channel : String) : ℝ :=
  match lookup e.market_channels (market ++ "_" ++ channel) with
  | some mc => mc.channel_weight
  | none => 1.0

/-- Step 5, layer C: strategic synergy score. -/
noncomputable def scoreC (e : CalculationEngine) (sku : SkuRecord) : ℝ :=
  (sku.score_price_ladder.getD 0) * getSetting e "price_ladder_weight" 0.2 +
  (sku.score_usage_occasion.getD 0) * getSetting e "usage_occasion_weight" 0.2 +
  (sku.score_channel_diff.getD 0) * getSetting e "channel_diff_weight" 0.2 +
  (sku.score_story_cohesion.getD 0) * getSetting e "story_cohesion_weight" 0.2 +
  (sku.score_operational_synergy.getD 0) * getSetting e "operational_synergy_weight" 0.2

/-- Step 6, layer D: risk heatmap score. -/
noncomputable def scoreD (e : CalculationEngine) (sku : SkuRecord) : ℝ :=
  (sku.score_regulatory_delay.getD 0) * getSetting e "regulatory_delay_weight" 0.2 +
  (sku.score_retail_listing.getD 0) * getSetting e "retail_listing_weight" 0.2 +
  (sku.score_competitive.getD 0) * getSetting e "competitive_weight" 0.2 +
  (sku.score_supply_chain.getD 0) * getSetting e "supply_chain_weight" 0.2 +
  (sku.score_price_war.getD 0) * getSetting e "price_war_weight" 0.2

/-- Step 8: base monthly unit volume (0 when the channel is unconfigured). -/
noncomputable def baseUnits (e : CalculationEngine) (market channel : String) : ℝ :=
  match lookup e.market_channels (market ++ "_" ++ channel) with
  | some mc => mc.base_units_month
  | none => 0.0

/-- Step 8b: risk factor = `max(floor, 1 − slope × (risk score − 1))`. -/
noncomputable def riskFactor (e : CalculationEngine) (sku : SkuRecord) : ℝ :=
  max (getSetting e "global_risk_floor" 0.6)
    (1.0 - getSetting e "global_risk_slope" 0.25 * (scoreD e sku - 1.0))

/-- Step 8b: score multiplier = `max(0.6, channel-weighted score / 5)`. -/
noncomputable def scoreMultiplier (e : CalculationEngine) (sku : SkuRecord) (market channel : String) : ℝ :=
  max 0.6 (scoreB e sku * chWeight e market channel / 5.0)

/-- Step 8b: marketing factor — resolved `marketing_lift` clamped to `[0.85, 1.15]`. -/
noncomputable def marketingFactor (e : CalculationEngine) (sku : SkuRecord) (market channel : String) : ℝ :=
  max 0.85 (min 1.15 (1.0 * getOverride e market channel (orString sku.category "Unknown") "marketing_lift" 1.0))

/-- Step 8b: adoption factor — resolved `adoption_rate`, unclamped. -/
noncomputable def adoptionFactor (e : CalculationEngine) (sku : SkuRecord) (market channel : String) : ℝ :=
  getOverride e market channel (orString sku.category "Unknown") "adoption_rate" 1.0

/-- Step 8b: competitor factor, derived from the risk penalty. -/
noncomputable def competitorFactor (e : CalculationEngine) (sku : SkuRecord) (market channel : String) : ℝ :=
  let target_comp_index := getOverride e market channel (orString sku.category "Unknown") "competitor_idx" 1.0
  let lin_penalty :=
    (getSetting e "competitive_weight" 0.2 * target_comp_index +
     getSetting e "price_war_weight" 0.2 * target_comp_index) * (scoreD e sku / 5.0)
  max (1.0 - min (getSetting e "risk_penalty_cap" 0.4) lin_penalty) 0.6

/-- Step 8b: price-effective index = `1.0 × (1 + global price adjustment)`. -/
noncomputable def priceEffIndex (e : CalculationEngine) : ℝ :=
  1.0 * (1.0 + getSetting e "global_price_adjustment_pct" 0.0)

/-- Step 8b: ramp factor (constant 1.0 placeholder in the source). -/
noncomputable def rampFactor : ℝ := 1.0

/-- Step 8b: the common pre-calculated unit multiplier. -/
noncomputable def commonUnitsMult (e : CalculationEngine) (sku : SkuRecord) (market channel : String) : ℝ :=
  baseUnits e market channel * scoreMultiplier e sku market channel * riskFactor e sku *
    marketingFactor e sku market channel * adoptionFactor e sku market channel *
    competitorFactor e sku market channel * rampFactor

/-- Step 8c: a scenario's price effect,
`(1 / (price_eff_index × (1 + price_delta))) ** price_elasticity` (real power). -/
noncomputable def priceEffect (e : CalculationEngine) (price_delta : ℝ) : ℝ :=
  Real.rpow (1.0 / (priceEffIndex e * (1.0 + price_delta))) (getSetting e "price_elasticity_abs" 1.5)

/-- Step 8c: base-scenario adjusted units. -/
noncomputable def adjUnitsBase (e : CalculationEngine) (sku : SkuRecord) (market channel : String) : ℝ :=
  commonUnitsMult e sku market channel *
    priceEffect e (getSetting e "scenario_base_price_delta" 0.0) *
    getSetting e "scenario_base_marketing_mult" 1.0 *
    getSetting e "scenario_base_adoption_mult" 1.0 *
    getSetting e "scenario_base_competitor_mult" 1.0

/-- Step 8c: best-scenario adjusted units. -/
noncomputable def adjUnitsBest (e : CalculationEngine) (sku : SkuRecord) (market channel : String) : ℝ :=
  commonUnitsMult e sku market channel *
    priceEffect e (getSetting e "scenario_best_price_delta" (-0.05)) *
    getSetting e "scenario_best_marketing_mult" 1.15 *
    getSetting e "scenario_best_adoption_mult" 1.2 *
    getSetting e "scenario_best_competitor_mult" 0.9

/-- Step 8c: worst-scenario adjusted units. -/
noncomputable def adjUnitsWorst (e : CalculationEngine) (sku : SkuRecord) (market channel : String) : ℝ :=
  commonUnitsMult e sku market channel *
    priceEffect e (getSetting e "scenario_worst_price_delta" 0.10) *
    getSetting e "scenario_worst_marketing_mult" 0.85 *
    getSetting e "scenario_worst_adoption_mult" 0.8 *
    getSetting e "scenario_worst_competitor_mult" 1.2

/-- Step 9: regulatory gate — `None` means passed, only explicit `False` fails. -/
def passRegulatory (sku : SkuRecord) : Bool := sku.regulatory_eligible.getD true

/-- Step 9: supply-readiness gate — `None` means passed. -/
def passSupplyReady (sku : SkuRecord) : Bool := sku.supply_ready.getD true

/-- Step 9: gross-margin gate — `gm_pct ≥ gm_floor_pct` (default 0.35). -/
noncomputable def passGmFloor (e : CalculationEngine) (sku : SkuRecord) (market channel : String) : Bool :=
  decide (gmPct e sku market channel ≥ getSetting e "gm_floor_pct" 0.35)

/-- Step 9: final recommendation and wave-1 selection, first match wins. -/
noncomputable def finalRecommendation (e : CalculationEngine) (sku : SkuRecord) (market channel : String) :
    String × Bool :=
  if optTrue sku.ip_risk_high || optTrue sku.regulatory_prohibition then
    ("Do Not Launch", false)
  else if passRegulatory sku && passSupplyReady sku && passGmFloor e sku market channel &&
      decide (scoreB e sku ≥ getSetting e "launch_now_min_score" 4.0) &&
      decide (scoreD e sku ≤ getSetting e "launch_now_max_risk" 2.5) then
    ("Launch Now", true)
  else
    ("Phase Later", false)

/-- The fully-computed cache built in the complete branch of `calculate_sku`. -/
noncomputable def computedCache (e : CalculationEngine) (sku : SkuRecord) (market channel : String) :
    SkuCalculationCache :=
  { sku_id := sku.sku_id
    gm_dollar_per_unit := gmDollarPerUnit e sku market channel
    gm_pct := gmPct e sku market channel
    weighted_score_layer_b := scoreB e sku
    channel_weighted_score := scoreB e sku * chWeight e market channel
    synergy_score_layer_c := scoreC e sku
    risk_score_layer_d := scoreD e sku
    risk_factor := riskFactor e sku
    adj_units_base := adjUnitsBase e sku market channel
    adj_units_best := adjUnitsBest e sku market channel
    adj_units_worst := adjUnitsWorst e sku market channel
    monthly_revenue := adjUnitsBase e sku market channel * adjListPrice e sku market
    monthly_gm_dollar := adjUnitsBase e sku market channel * gmDollarPerUnit e sku market channel
    monthly_gm_base := adjUnitsBase e sku market channel * gmDollarPerUnit e sku market channel
    monthly_gm_best := adjUnitsBest e sku market channel * gmDollarPerUnit e sku market channel
    monthly_gm_worst := adjUnitsWorst e sku market channel * gmDollarPerUnit e sku market channel
    pass_regulatory := passRegulatory sku
    pass_supply_ready := passSupplyReady sku
    pass_gm_floor := passGmFloor e sku market channel
    final_recommendation := (finalRecommendation e sku market channel).1
    select_for_wave_1 := (finalRecommendation e sku market channel).2 }

/-- `CalculationEngine.calculate_sku`: short-circuits to the empty cache
when the SKU lacks a target market or a primary channel (Python
truthiness: `None` or `""`), otherwise computes the full snapshot. -/
noncomputable def calculate_sku (e : CalculationEngine) (sku : SkuRecord) : SkuCalculationCache :=
  if isBlank sku.target_market || isBlank sku.primary_channel then
    { sku_id := sku.sku_id }
  else
    computedCache e sku (sku.target_market.getD "") (sku.primary_channel.getD "")

/-! ## Helper lemmas -/

/-- The cascade, one field at a time: when the category attribute reader
and the (always-present) channel attribute reader are fixed, the resolver
is the three-tier `Option` chain. -/
theorem getOverride_chain (e : CalculationEngine) (m c cat field : String) (d : ℝ)
    (fcat : MarketCategoryConfig → Option ℝ) (fchan : MarketChannelConfig → ℝ)
    (hcat : ∀ cc, catAttr cc (field ++ "_override") = fcat cc)
    (hchan : ∀ mc, chanAttr mc (mapFieldName field) = some (fchan mc)) :
    getOverride e m c cat field d =
      ((lookup e.market_categories (m ++ "_" ++ c ++ "_" ++ cat)).bind fcat).getD
        (((lookup e.market_channels (m ++ "_" ++ c)).map fchan).getD
          ((lookup e.settings field).getD d)) := by
  unfold getOverride getSetting
  simp only [hcat, hchan]
  cases h1 : lookup e.market_categories (m ++ "_" ++ c ++ "_" ++ cat) with
  | none =>
    cases h2 : lookup e.market_channels (m ++ "_" ++ c) with
    | none => simp
    | some mc => simp
  | some cc =>
    cases h2 : fcat cc with
    | none =>
      cases h3 : lookup e.market_channels (m ++ "_" ++ c) with
      | none => simp [h2]
      | some mc => simp [h2]
    | some v => simp [h2]

/-- A SKU whose target market and primary channel are both present and
non-empty takes the fully-computed branch of `calculate_sku`. -/
theorem calculate_sku_complete (e : CalculationEngine) (sku : SkuRecord) (m c : String)
    (hm : sku.target_market = some m) (hm' : m ≠ "")
    (hc : sku.primary_channel = some c) (hc' : c ≠ "") :
    calculate_sku e sku = computedCache e sku m c := by
  unfold calculate_sku
  rw [hm, hc]
  simp [isBlank, String.isEmpty_iff, hm', hc']

/-- The recommendation is always one of the three terminal states. -/
theorem finalRecommendation_cases (e : CalculationEngine) (sku : SkuRecord) (m c : String) :
    finalRecommendation e sku m c = ("Do Not Launch", false) ∨
    finalRecommendation e sku m c = ("Launch Now", true) ∨
    finalRecommendation e sku m c = ("Phase Later", false) := by
  unfold finalRecommendation
  split
  · exact Or.inl rfl
  · split
    · exact Or.inr (Or.inl rfl)
    · exact Or.inr (Or.inr rfl)

/-! ## Claims -/

/-- C1: the resolver `_get_override(market, channel, category, field,
default)` consults, in order: the category configuration's
`<field>_override` attribute when non-null; then the channel
configuration's attribute under the fixed translation table
(`adoption_rate → retail_adoption_rate`, `marketing_lift →
marketing_lift`, `competitor_idx → competitor_activity_idx`); then the
global setting under the original field name, with the caller-supplied
default when that setting is absent.  First match wins, for all three
fields. -/
theorem override_cascade_three_fields (e : CalculationEngine) (m c cat : String) (d : ℝ) :
    getOverride e m c cat "adoption_rate" d =
      ((lookup e.market_categories (m ++ "_" ++ c ++ "_" ++ cat)).bind
          (fun cc => cc.adoption_rate_override)).getD
        (((lookup e.market_channels (m ++ "_" ++ c)).map
            (fun mc => mc.retail_adoption_rate)).getD
          ((lookup e.settings "adoption_rate").getD d)) ∧
    getOverride e m c cat "marketing_lift" d =
      ((lookup e.market_categories (m ++ "_" ++ c ++ "_" ++ cat)).bind
          (fun cc => cc.marketing_lift_override)).getD
        (((lookup e.market_channels (m ++ "_" ++ c)).map
            (fun mc => mc.marketing_lift)).getD
          ((lookup e.settings "marketing_lift").getD d)) ∧
    getOverride e m c cat "competitor_idx" d =
      ((lookup e.market_categories (m ++ "_" ++ c ++ "_" ++ cat)).bind
          (fun cc => cc.competitor_idx_override)).getD
        (((lookup e.market_channels (m ++ "_" ++ c)).map
            (fun mc => mc.competitor_activity_idx)).getD
          ((lookup e.settings "competitor_idx").getD d)) := by
  refine ⟨?_, ?_, ?_⟩
  · exact getOverride_chain e m c cat "adoption_rate" d _ _
      (fun cc => by simp [catAttr]) (fun mc => by simp [chanAttr, mapFieldName])
  · exact getOverride_chain e m c cat "marketing_lift" d _ _
      (fun cc => by simp [catAttr]) (fun mc => by simp [chanAttr, mapFieldName])
  · exact getOverride_chain e m c cat "competitor_idx" d _ _
      (fun cc => by simp [catAttr]) (fun mc => by simp [chanAttr, mapFieldName])

/-- C2 (amended): `calculate_sku` returns the all-zero/empty degenerate
result exactly when the SKU lacks a target market **or** lacks a primary
channel (Python falsiness); when both are present and non-empty the
result is the fully computed snapshot, whose recommendation is one of
the three terminal states and never the degenerate empty string. -/
theorem degenerate_iff_missing_market_or_channel (e : CalculationEngine) (sku : SkuRecord) :
    ((isBlank sku.target_market || isBlank sku.primary_channel) = true →
      calculate_sku e sku = { sku_id := sku.sku_id }) ∧
    (∀ m c, sku.target_market = some m → m ≠ "" → sku.primary_channel = some c → c ≠ "" →
      calculate_sku e sku = computedCache e sku m c ∧
      (calculate_sku e sku).final_recommendation ≠ "") := by
  constructor
  · intro h
    unfold calculate_sku
    rw [h]
    simp
  · intro m c hm hm' hc hc'
    have hfull := calculate_sku_complete e sku m c hm hm' hc hc'
    refine ⟨hfull, ?_⟩
    rw [hfull]
    show (finalRecommendation e sku m c).1 ≠ ""
    rcases finalRecommendation_cases e sku m c with h | h | h <;> rw [h] <;> decide

/-- C2 counterexample: a SKU with a present, non-empty target market but
no primary channel — the claim says at least one present implies a fully
computed (non-degenerate) result, yet the code returns the empty cache. -/
theorem degenerate_despite_market_present :
    isBlank ({ sku_id := "SKU-1", target_market := some "US" } : SkuRecord).target_market = false ∧
    calculate_sku (CalculationEngine.mk [] [] [] []) { sku_id := "SKU-1", target_market := some "US" } =
      { sku_id := "SKU-1" } := by
  constructor
  · rfl
  · unfold calculate_sku
    rfl

/-- Witness for C2: a concrete complete SKU reaches the computed branch
and carries a non-empty recommendation. -/
theorem degenerate_iff_missing_market_or_channel_witness :
    (calculate_sku (CalculationEngine.mk [] [] [] [])
        { sku_id := "SKU-2", target_market := some "US", primary_channel := some "Retail" }).final_recommendation ≠ "" :=
  ((degenerate_iff_missing_market_or_channel (CalculationEngine.mk [] [] [] [])
      { sku_id := "SKU-2", target_market := some "US", primary_channel := some "Retail" }).2
    "US" "Retail" rfl (by decide) rfl (by decide)).2

/-- C10: the presence test is Python falsiness — a SKU whose target
market or primary channel is the empty string takes the degenerate
short-circuit exactly as if the attribute were null. -/
theorem empty_string_short_circuits (e : CalculationEngine) (sku : SkuRecord)
    (h : sku.target_market = some "" ∨ sku.primary_channel = some "") :
    calculate_sku e sku = { sku_id := sku.sku_id } := by
  unfold calculate_sku
  rcases h with h | h
  · have hb : isBlank sku.target_market = true := by rw [h]; rfl
    rw [hb]
    simp
  · have hb : isBlank sku.primary_channel = true := by rw [h]; rfl
    rw [hb]
    simp

/-- Witness for C10: a SKU with an empty-string target market (and a
non-empty channel) yields the empty cache. -/
theorem empty_string_short_circuits_witness :
    calculate_sku (CalculationEngine.mk [] [] [] [])
        { sku_id := "SKU-3", target_market := some "", primary_channel := some "Retail" } =
      { sku_id := "SKU-3" } :=
  empty_string_short_circuits (CalculationEngine.mk [] [] [] [])
    { sku_id := "SKU-3", target_market := some "", primary_channel := some "Retail" }
    (Or.inl rfl)

/-! ## Concrete fixtures for witnesses (spec §8 end-to-end example) -/

/-- Market configured as in the spec's end-to-end example: multiplier
1.1, import freight 10 %, duties 15 %. -/
noncomputable def demoMarket : MarketConfig :=
  { import_freight_pct := 0.1, duties_taxes_pct := 0.15, price_multiplier := 1.1 }

/-- Channel whose eight CTS percentages total 0.20, with 100 base
monthly units. -/
noncomputable def demoChannel : MarketChannelConfig :=
  { commission_pct := 0.20, base_units_month := 100 }

/-- A complete SKU with list price 100 and landed cost 40. -/
noncomputable def demoSku : SkuRecord :=
  { sku_id := "SKU-D", target_market := some "US", primary_channel := some "Retail",
    local_list_price := some 100, landed_cost := some 40 }

/-- Engine holding exactly the demo market and channel, no settings and
no category overrides. -/
noncomputable def demoEngine : CalculationEngine :=
  { settings := [], markets := [("US", demoMarket)],
    market_channels := [("US_Retail", demoChannel)], market_categories := [] }

/-- C3: financial formulas — with a configured market the adjusted list
price is `list price × multiplier` and the imported cost is
`landed cost × (1+freight) × (1+duties)`; with no market configuration
both pass through (`m = 1`, `f = d = 0`); with no channel configuration
the CTS total is 0; and the per-unit gross margin of the computed result
is always `adjusted − (imported + CTS × adjusted)`. -/
theorem financial_formulas (e : CalculationEngine) (sku : SkuRecord) (m c : String)
    (hm : sku.target_market = some m) (hm' : m ≠ "")
    (hc : sku.primary_channel = some c) (hc' : c ≠ "") :
    (∀ md, lookup e.markets m = some md →
      adjListPrice e sku m = (sku.local_list_price.getD 0) * md.price_multiplier ∧
      importedCogs e sku m =
        (sku.landed_cost.getD 0) * (1 + md.import_freight_pct) * (1 + md.duties_taxes_pct)) ∧
    (lookup e.markets m = none →
      adjListPrice e sku m = (sku.local_list_price.getD 0) * 1 ∧
      importedCogs e sku m = (sku.landed_cost.getD 0) * (1 + 0) * (1 + 0)) ∧
    (lookup e.market_channels (m ++ "_" ++ c) = none → ctsPct e m c = 0) ∧
    (calculate_sku e sku).gm_dollar_per_unit =
      adjListPrice e sku m - (importedCogs e sku m + ctsPct e m c * adjListPrice e sku m) := by
  refine ⟨?_, ?_, ?_, ?_⟩
  · intro md hmd
    unfold adjListPrice importedCogs
    rw [hmd]
    norm_num
  · intro hmd
    unfold adjListPrice importedCogs
    rw [hmd]
    norm_num
  · intro hch
    unfold ctsPct
    rw [hch]
    norm_num
  · rw [calculate_sku_complete e sku m c hm hm' hc hc']
    rfl

/-- Witness for C3: the spec's end-to-end example — list price 100,
landed cost 40, multiplier 1.1, freight 0.1, duties 0.15, CTS 0.20 give
adjusted price 110, imported cost 50.6 and margin per unit 37.4. -/
theorem financial_formulas_witness :
    adjListPrice demoEngine demoSku "US" = 110 ∧
    importedCogs demoEngine demoSku "US" = 50.6 ∧
    (calculate_sku demoEngine demoSku).gm_dollar_per_unit = 37.4 := by
  obtain ⟨hcfg, -, -, hgm⟩ :=
    financial_formulas demoEngine demoSku "US" "Retail"
      (by rfl) (by decide) (by rfl) (by decide)
  obtain ⟨hadj, hcogs⟩ := hcfg demoMarket (by rfl)
  have hadj' : adjListPrice demoEngine demoSku "US" = 110 := by
    rw [hadj]
    norm_num [demoSku, demoMarket]
  have hcogs' : importedCogs demoEngine demoSku "US" = 50.6 := by
    rw [hcogs]
    norm_num [demoSku, demoMarket]
  have hcts : ctsPct demoEngine "US" "Retail" = 0.20 := by
    unfold ctsPct
    rw [show lookup demoEngine.market_channels ("US" ++ "_" ++ "Retail") = some demoChannel from rfl]
    norm_num [demoChannel]
  refine ⟨hadj', hcogs', ?_⟩
  rw [hgm, hadj', hcogs', hcts]
  norm_num

/-- C6: the gross-margin percentage of the computed result equals margin
per unit divided by adjusted list price when that price is positive, and
is exactly 0 when the adjusted list price is ≤ 0 (division-by-zero
guard, never an exception). -/
theorem gm_pct_division_guard (e : CalculationEngine) (sku : SkuRecord) (m c : String)
    (hm : sku.target_market = some m) (hm' : m ≠ "")
    (hc : sku.primary_channel = some c) (hc' : c ≠ "") :
    (adjListPrice e sku m > 0 →
      (calculate_sku e sku).gm_pct =
        (calculate_sku e sku).gm_dollar_per_unit / adjListPrice e sku m) ∧
    (adjListPrice e sku m ≤ 0 → (calculate_sku e sku).gm_pct = 0) := by
  rw [calculate_sku_complete e sku m c hm hm' hc hc']
  constructor
  · intro h
    show gmPct e sku m c = gmDollarPerUnit e sku m c / adjListPrice e sku m
    unfold gmPct
    rw [if_pos h]
  · intro h
    show gmPct e sku m c = 0
    unfold gmPct
    rw [if_neg (not_lt.mpr h)]
    norm_num

/-- Witness for C6: a complete SKU with no list price (adjusted price 0)
but a positive landed cost still yields margin % exactly 0. -/
theorem gm_pct_division_guard_witness :
    (calculate_sku demoEngine
        { sku_id := "SKU-Z", target_market := some "US", primary_channel := some "Retail",
          landed_cost := some 40 }).gm_pct = 0 := by
  have h0 : adjListPrice demoEngine
      { sku_id := "SKU-Z", target_market := some "US", primary_channel := some "Retail",
        landed_cost := some 40 } "US" = 0 := by
    unfold adjListPrice
    rw [show lookup demoEngine.markets "US" = some demoMarket from rfl]
    norm_num [demoMarket]
  exact (gm_pct_division_guard demoEngine
      { sku_id := "SKU-Z", target_market := some "US", primary_channel := some "Retail",
        landed_cost := some 40 } "US" "Retail"
      (by rfl) (by decide) (by rfl) (by decide)).2 (le_of_eq h0)

/-- C7: a missing (null) rating contributes 0 to each weighted sum, so a
SKU with all fifteen ratings unset has fit, synergy and risk scores
exactly 0, for every configuration of the fifteen weights. -/
theorem all_ratings_unset_scores_zero (e : CalculationEngine) (sku : SkuRecord) (m c : String)
    (hm : sku.target_market = some m) (hm' : m ≠ "")
    (hc : sku.primary_channel = some c) (hc' : c ≠ "")
    (b1 : sku.score_consumer_trend = none) (b2 : sku.score_point_of_diff = none)
    (b3 : sku.score_channel_suitability = none) (b4 : sku.score_strategic_role = none)
    (b5 : sku.score_marketing_leverage = none)
    (c1 : sku.score_price_ladder = none) (c2 : sku.score_usage_occasion = none)
    (c3 : sku.score_channel_diff = none) (c4 : sku.score_story_cohesion = none)
    (c5 : sku.score_operational_synergy = none)
    (d1 : sku.score_regulatory_delay = none) (d2 : sku.score_retail_listing = none)
    (d3 : sku.score_competitive = none) (d4 : sku.score_supply_chain = none)
    (d5 : sku.score_price_war = none) :
    (calculate_sku e sku).weighted_score_layer_b = 0 ∧
    (calculate_sku e sku).synergy_score_layer_c = 0 ∧
    (calculate_sku e sku).risk_score_layer_d = 0 := by
  rw [calculate_sku_complete e sku m c hm hm' hc hc']
  refine ⟨?_, ?_, ?_⟩
  · show scoreB e sku = 0
    unfold scoreB
    rw [b1, b2, b3, b4, b5]
    simp
  · show scoreC e sku = 0
    unfold scoreC
    rw [c1, c2, c3, c4, c5]
    simp
  · show scoreD e sku = 0
    unfold scoreD
    rw [d1, d2, d3, d4, d5]
    simp

/-- Witness for C7: a complete SKU with every rating unset, under an
engine that configures a non-default weight, still scores 0/0/0. -/
theorem all_ratings_unset_scores_zero_witness :
    (calculate_sku
        { settings := [("consumer_trend_weight", 0.9)], markets := [],
          market_channels := [], market_categories := [] }
        { sku_id := "SKU-0", target_market := some "US",
          primary_channel := some "Retail" }).weighted_score_layer_b = 0 ∧
    (calculate_sku
        { settings := [("consumer_trend_weight", 0.9)], markets := [],
          market_channels := [], market_categories := [] }
        { sku_id := "SKU-0", target_market := some "US",
          primary_channel := some "Retail" }).synergy_score_layer_c = 0 ∧
    (calculate_sku
        { settings := [("consumer_trend_weight", 0.9)], markets := [],
          market_channels := [], market_categories := [] }
        { sku_id := "SKU-0", target_market := some "US",
          primary_channel := some "Retail" }).risk_score_layer_d = 0 :=
  all_ratings_unset_scores_zero
    { settings := [("consumer_trend_weight", 0.9)], markets := [],
      market_channels := [], market_categories := [] }
    { sku_id := "SKU-0", target_market := some "US", primary_channel := some "Retail" }
    "US" "Retail" rfl (by decide) rfl (by decide)
    rfl rfl rfl rfl rfl rfl rfl rfl rfl rfl rfl rfl rfl rfl rfl

/-- C5: `ip_risk_high` (or `regulatory_prohibition`) forces the
recommendation "Do Not Launch" and deselects wave 1, for every engine
configuration, gate flag and score — absolute precedence over
"Launch Now". -/
theorem ip_risk_forces_do_not_launch (e : CalculationEngine) (sku : SkuRecord) (m c : String)
    (hm : sku.target_market = some m) (hm' : m ≠ "")
    (hc : sku.primary_channel = some c) (hc' : c ≠ "")
    (hip : sku.ip_risk_high = some true ∨ sku.regulatory_prohibition = some true) :
    (calculate_sku e sku).final_recommendation = "Do Not Launch" ∧
    (calculate_sku e sku).select_for_wave_1 = false := by
  rw [calculate_sku_complete e sku m c hm hm' hc hc']
  have hcond : (optTrue sku.ip_risk_high || optTrue sku.regulatory_prohibition) = true := by
    rcases hip with h | h <;> rw [h] <;> simp [optTrue]
  constructor
  · show (finalRecommendation e sku m c).1 = "Do Not Launch"
    unfold finalRecommendation
    rw [hcond]
    simp
  · show (finalRecommendation e sku m c).2 = false
    unfold finalRecommendation
    rw [hcond]
    simp

/-- Witness for C5: a SKU flagged `ip_risk_high` whose every other
attribute is unset (so each gate would pass) is still "Do Not Launch". -/
theorem ip_risk_forces_do_not_launch_witness :
    (calculate_sku (CalculationEngine.mk [] [] [] [])
        { sku_id := "SKU-IP", target_market := some "US", primary_channel := some "Retail",
          ip_risk_high := some true }).final_recommendation = "Do Not Launch" ∧
    (calculate_sku (CalculationEngine.mk [] [] [] [])
        { sku_id := "SKU-IP", target_market := some "US", primary_channel := some "Retail",
          ip_risk_high := some true }).select_for_wave_1 = false :=
  ip_risk_forces_do_not_launch (CalculationEngine.mk [] [] [] [])
    { sku_id := "SKU-IP", target_market := some "US", primary_channel := some "Retail",
      ip_risk_high := some true }
    "US" "Retail" rfl (by decide) rfl (by decide) (Or.inl rfl)

/-- C9: rollups come from the base scenario only — monthly revenue is
base units × adjusted price, the two gross-margin-dollar fields are the
equal base rollup, and the best/worst GM dollars multiply their scenario
units by the same base margin per unit. -/
theorem rollups_from_base_margin (e : CalculationEngine) (sku : SkuRecord) (m c : String)
    (hm : sku.target_market = some m) (hm' : m ≠ "")
    (hc : sku.primary_channel = some c) (hc' : c ≠ "") :
    (calculate_sku e sku).monthly_revenue =
      (calculate_sku e sku).adj_units_base * adjListPrice e sku m ∧
    (calculate_sku e sku).monthly_gm_dollar =
      (calculate_sku e sku).adj_units_base * (calculate_sku e sku).gm_dollar_per_unit ∧
    (calculate_sku e sku).monthly_gm_base = (calculate_sku e sku).monthly_gm_dollar ∧
    (calculate_sku e sku).monthly_gm_best =
      (calculate_sku e sku).adj_units_best * (calculate_sku e sku).gm_dollar_per_unit ∧
    (calculate_sku e sku).monthly_gm_worst =
      (calculate_sku e sku).adj_units_worst * (calculate_sku e sku).gm_dollar_per_unit := by
  rw [calculate_sku_complete e sku m c hm hm' hc hc']
  exact ⟨rfl, rfl, rfl, rfl, rfl⟩

/-- Witness for C9: the rollup identities at the concrete demo engine
and SKU. -/
theorem rollups_from_base_margin_witness :
    (calculate_sku demoEngine demoSku).monthly_revenue =
      (calculate_sku demoEngine demoSku).adj_units_base * adjListPrice demoEngine demoSku "US" ∧
    (calculate_sku demoEngine demoSku).monthly_gm_base =
      (calculate_sku demoEngine demoSku).monthly_gm_dollar :=
  ⟨(rollups_from_base_margin demoEngine demoSku "US" "Retail"
      rfl (by decide) rfl (by decide)).1,
   (rollups_from_base_margin demoEngine demoSku "US" "Retail"
      rfl (by decide) rfl (by decide)).2.2.1⟩

/-- C8: the engine never fails on absent configuration — an absent
global setting yields the caller default, a fully-absent cascade yields
the resolver's default, an absent market passes price and cost through,
and an absent channel gives CTS 0, channel weight 1 and zero base units
(hence zero scenario volumes); `calculate_sku` still returns the fully
computed snapshot. -/
theorem absent_config_degrades_to_defaults (e : CalculationEngine) (sku : SkuRecord)
    (m c key field : String) (d d2 : ℝ)
    (hm : sku.target_market = some m) (hm' : m ≠ "")
    (hc : sku.primary_channel = some c) (hc' : c ≠ "")
    (hmarket : lookup e.markets m = none)
    (hchan : lookup e.market_channels (m ++ "_" ++ c) = none)
    (hcat : lookup e.market_categories
      (m ++ "_" ++ c ++ "_" ++ orString sku.category "Unknown") = none)
    (hset : lookup e.settings key = none)
    (hfield : lookup e.settings field = none) :
    getSetting e key d = d ∧
    getOverride e m c (orString sku.category "Unknown") field d2 = d2 ∧
    calculate_sku e sku = computedCache e sku m c ∧
    (calculate_sku e sku).gm_dollar_per_unit =
      sku.local_list_price.getD 0 - sku.landed_cost.getD 0 ∧
    (calculate_sku e sku).channel_weighted_score =
      (calculate_sku e sku).weighted_score_layer_b ∧
    (calculate_sku e sku).adj_units_base = 0 ∧
    (calculate_sku e sku).adj_units_best = 0 ∧
    (calculate_sku e sku).adj_units_worst = 0 := by
  have hfull := calculate_sku_complete e sku m c hm hm' hc hc'
  refine ⟨?_, ?_, hfull, ?_, ?_, ?_, ?_, ?_⟩
  · unfold getSetting
    rw [hset]
    rfl
  · unfold getOverride getSetting
    rw [hcat, hchan, hfield]
    simp
  · rw [hfull]
    show gmDollarPerUnit e sku m c = _
    unfold gmDollarPerUnit adjListPrice importedCogs ctsPct
    rw [hmarket, hchan]
    norm_num
  · rw [hfull]
    show scoreB e sku * chWeight e m c = scoreB e sku
    unfold chWeight
    rw [hchan]
    norm_num
  · rw [hfull]
    show adjUnitsBase e sku m c = 0
    unfold adjUnitsBase commonUnitsMult baseUnits
    rw [hchan]
    norm_num
  · rw [hfull]
    show adjUnitsBest e sku m c = 0
    unfold adjUnitsBest commonUnitsMult baseUnits
    rw [hchan]
    norm_num
  · rw [hfull]
    show adjUnitsWorst e sku m c = 0
    unfold adjUnitsWorst commonUnitsMult baseUnits
    rw [hchan]
    norm_num

/-- Witness for C8: the everything-empty configuration still produces a
result whose fields carry the documented defaults. -/
theorem absent_config_degrades_to_defaults_witness :
    getSetting (CalculationEngine.mk [] [] [] []) "gm_floor_pct" 0.35 = 0.35 ∧
    getOverride (CalculationEngine.mk [] [] [] []) "US" "Retail" "Unknown" "adoption_rate" 1.0 = 1.0 ∧
    (calculate_sku (CalculationEngine.mk [] [] [] [])
        { sku_id := "SKU-E", target_market := some "US",
          primary_channel := some "Retail" }).adj_units_base = 0 := by
  obtain ⟨h1, h2, -, -, -, h6, -, -⟩ :=
    absent_config_degrades_to_defaults (CalculationEngine.mk [] [] [] [])
      { sku_id := "SKU-E", target_market := some "US", primary_channel := some "Retail" }
      "US" "Retail" "gm_floor_pct" "adoption_rate" 0.35 1.0
      rfl (by decide) rfl (by decide) rfl rfl rfl rfl rfl
  exact ⟨h1, h2, h6⟩

/-- C4: with the default scenario settings (base 0/1/1/1, best
−0.05/1.15/1.2/0.9, worst +0.10/0.85/0.8/1.2), a positive common unit
multiplier, a positive price-effective index and positive price
elasticity order the scenario volumes:
worst ≤ base ≤ best. -/
theorem scenario_units_ordering (e : CalculationEngine) (sku : SkuRecord) (m c : String)
    (hm : sku.target_market = some m) (hm' : m ≠ "")
    (hc : sku.primary_channel = some c) (hc' : c ≠ "")
    (h1 : getSetting e "scenario_base_price_delta" 0.0 = 0.0)
    (h2 : getSetting e "scenario_base_marketing_mult" 1.0 = 1.0)
    (h3 : getSetting e "scenario_base_adoption_mult" 1.0 = 1.0)
    (h4 : getSetting e "scenario_base_competitor_mult" 1.0 = 1.0)
    (h5 : getSetting e "scenario_best_price_delta" (-0.05) = -0.05)
    (h6 : getSetting e "scenario_best_marketing_mult" 1.15 = 1.15)
    (h7 : getSetting e "scenario_best_adoption_mult" 1.2 = 1.2)
    (h8 : getSetting e "scenario_best_competitor_mult" 0.9 = 0.9)
    (h9 : getSetting e "scenario_worst_price_delta" 0.10 = 0.10)
    (h10 : getSetting e "scenario_worst_marketing_mult" 0.85 = 0.85)
    (h11 : getSetting e "scenario_worst_adoption_mult" 0.8 = 0.8)
    (h12 : getSetting e "scenario_worst_competitor_mult" 1.2 = 1.2)
    (hM : 0 < commonUnitsMult e sku m c)
    (hP : 0 < priceEffIndex e)
    (hE : 0 < getSetting e "price_elasticity_abs" 1.5) :
    (calculate_sku e sku).adj_units_worst ≤ (calculate_sku e sku).adj_units_base ∧
    (calculate_sku e sku).adj_units_base ≤ (calculate_sku e sku).adj_units_best := by
  rw [calculate_sku_complete e sku m c hm hm' hc hc']
  show adjUnitsWorst e sku m c ≤ adjUnitsBase e sku m c ∧
    adjUnitsBase e sku m c ≤ adjUnitsBest e sku m c
  unfold adjUnitsBase adjUnitsBest adjUnitsWorst priceEffect
  rw [h1, h2, h3, h4, h5, h6, h7, h8, h9, h10, h11, h12]
  set M := commonUnitsMult e sku m c with hMdef
  set P := priceEffIndex e with hPdef
  set E := getSetting e "price_elasticity_abs" 1.5 with hEdef
  norm_num
  have hPinv : (0:ℝ) < P⁻¹ := inv_pos.mpr hP
  have hx : (0:ℝ) ≤ 10/11 * P⁻¹ := by positivity
  have hxy : 10/11 * P⁻¹ ≤ P⁻¹ := by linarith
  have hpow1 : (10/11 * P⁻¹) ^ E ≤ P⁻¹ ^ E := Real.rpow_le_rpow hx hxy hE.le
  have h1nn : (0:ℝ) ≤ (10/11 * P⁻¹) ^ E := Real.rpow_nonneg hx E
  have hyz : P⁻¹ ≤ 20/19 * P⁻¹ := by linarith
  have hpow2 : P⁻¹ ^ E ≤ (20/19 * P⁻¹) ^ E := Real.rpow_le_rpow hPinv.le hyz hE.le
  have hznn : (0:ℝ) ≤ (20/19 * P⁻¹) ^ E := Real.rpow_nonneg (by positivity) E
  constructor
  · nlinarith [mul_le_mul_of_nonneg_left hpow1 hM.le, mul_nonneg hM.le h1nn]
  · nlinarith [mul_le_mul_of_nonneg_left hpow2 hM.le, mul_nonneg hM.le hznn]

/-- Witness for C4: the demo configuration (empty settings, 100 base
monthly units) has a positive common multiplier, unit price-effective
index and the default elasticity 1.5, so its scenario volumes are
ordered. -/
theorem scenario_units_ordering_witness :
    (calculate_sku demoEngine demoSku).adj_units_worst ≤
      (calculate_sku demoEngine demoSku).adj_units_base ∧
    (calculate_sku demoEngine demoSku).adj_units_base ≤
      (calculate_sku demoEngine demoSku).adj_units_best := by
  apply scenario_units_ordering demoEngine demoSku "US" "Retail"
    rfl (by decide) rfl (by decide) rfl rfl rfl rfl rfl rfl rfl rfl rfl rfl rfl rfl
  · -- common multiplier is a product of seven positive factors
    have hbu : (0:ℝ) < baseUnits demoEngine "US" "Retail" := by
      unfold baseUnits
      rw [show lookup demoEngine.market_channels ("US" ++ "_" ++ "Retail") =
        some demoChannel from rfl]
      norm_num [demoChannel]
    have hsm : (0:ℝ) < scoreMultiplier demoEngine demoSku "US" "Retail" :=
      lt_of_lt_of_le (by norm_num) (le_max_left _ _)
    have hrf : (0:ℝ) < riskFactor demoEngine demoSku := by
      refine lt_of_lt_of_le ?_ (le_max_left _ _)
      rw [show getSetting demoEngine "global_risk_floor" 0.6 = 0.6 from rfl]
      norm_num
    have hmf : (0:ℝ) < marketingFactor demoEngine demoSku "US" "Retail" :=
      lt_of_lt_of_le (by norm_num) (le_max_left _ _)
    have haf : (0:ℝ) < adoptionFactor demoEngine demoSku "US" "Retail" := by
      rw [show adoptionFactor demoEngine demoSku "US" "Retail" =
        demoChannel.retail_adoption_rate from rfl]
      norm_num [demoChannel]
    have hcf : (0:ℝ) < competitorFactor demoEngine demoSku "US" "Retail" :=
      lt_of_lt_of_le (by norm_num) (le_max_right _ _)
    have hrp : (0:ℝ) < rampFactor := by norm_num [rampFactor]
    unfold commonUnitsMult
    exact mul_pos (mul_pos (mul_pos (mul_pos (mul_pos (mul_pos hbu hsm) hrf) hmf) haf) hcf) hrp
  · unfold priceEffIndex getSetting
    norm_num [lookup]
  · unfold getSetting
    norm_num [lookup]

end SkuTool
